import Mathlib

/-!
Shallow embedding of `src/core.py` (bunny-ds): a small client around the
Bunny.net storage HTTP API plus helpers that serialize pandas data frames
through a local temporary file.

Modelling conventions:
  * The local filesystem is a map `String → Option (FileContent DF)`.
  * The type `DF` of data frames is abstract; the pandas encoders and
    decoders are external library code, so a file produced by an encoder is
    modelled symbolically as `FileContent.encoded codec df` and the matching
    decoder recovers `df`; equality of `df` is therefore the natural
    equality of the encoding format, e.g. up to CSV dtype loss.
  * HTTP is external: each function that performs a request takes the
    response it would receive as an explicit parameter, and records the
    request (method, URL, PUT body) in an event trace, together with the
    messages it prints.
  * Python exceptions are `Except Err`; `requests.Response.raise_for_status`
    raises exactly for status codes in 400..599.
  * `tempfile.NamedTemporaryFile(delete=False, suffix=s)` is modelled by a
    caller-supplied fresh base name: the temp path is `tmpBase ++ s`, and
    creating the handle creates an empty file at that path.
-/

/-- Split a character list at every occurrence of `c`. -/
def splitOnChar (c : Char) : List Char → List (List Char)
  | [] => [[]]
  | x :: xs =>
    let r := splitOnChar c xs
    if x = c then [] :: r
    else match r with
      | [] => [[x]]
      | h :: t => (x :: h) :: t

/-- ASCII lower-casing of one character (Python `str.lower` on ASCII). -/
def lowerChar (c : Char) : Char :=
  if 65 ≤ c.toNat ∧ c.toNat ≤ 90 then Char.ofNat (c.toNat + 32) else c

/-- ASCII lower-casing of a string (Python `str.lower`). -/
def strToLower (s : String) : String :=
  String.mk (s.data.map lowerChar)

/-- Python `pathlib.PurePath(p).name`: the final nonempty path component. -/
def pathName (p : String) : String :=
  match ((splitOnChar '/' p.data).filter (fun c => c ≠ [])).getLast? with
  | some n => String.mk n
  | none => ""

/-- Index of the last occurrence of `c` in the list, if any. -/
def lastIdxOf (c : Char) (cs : List Char) : Option Nat :=
  ((List.range cs.length).filter (fun i => cs.getD i ' ' = c)).getLast?

/-- Python `pathlib.PurePath(p).suffix`: the extension of the final
component including the leading dot; empty when the last dot is at the
start or the end of the name, or absent. -/
def pathSuffix (p : String) : String :=
  let name := (pathName p).data
  match lastIdxOf '.' name with
  | some i => if 0 < i ∧ i + 1 < name.length then String.mk (name.drop i) else ""
  | none => ""

/-- Python `s.lstrip(".")`: drop every leading dot. -/
def lstripDot (s : String) : String :=
  String.mk (s.data.dropWhile (fun c => c = '.'))

/-- Python `os.path.dirname` for POSIX paths: everything up to the last
slash, with trailing slashes stripped unless the head is all slashes. -/
def dirname (p : String) : String :=
  let cs := p.data
  match lastIdxOf '/' cs with
  | none => ""
  | some i =>
    let head := cs.take (i + 1)
    if head.all (fun c => c = '/') then String.mk head
    else String.mk ((head.reverse.dropWhile (fun c => c = '/')).reverse)

/-- Model of `requests.Response.raise_for_status`: it raises for 4xx and 5xx codes. -/
def raisesForStatus (status : Nat) : Bool :=
  400 ≤ status && status < 600

/-- The `DataFrameExt` literal from `core.py`: the supported extensions. -/
def dataFrameExt : List String :=
  ["csv", "xlsx", "parquet", "ods", "stata", "hdf", "f", "feather", "pkl", "pickle"]

/-- Content of a local file or of an HTTP body. An encoder output is kept
symbolic as the pair of the codec used and the data frame it encodes. -/
inductive FileContent (DF : Type) where
  | empty
  | raw (body : String)
  | encoded (codec : String) (df : DF)
deriving DecidableEq

/-- The local filesystem: a partial map from paths to contents. -/
def Fs (DF : Type) := String → Option (FileContent DF)

/-- The empty filesystem. -/
def fsEmpty (DF : Type) : Fs DF := fun _ => none

/-- Create or overwrite the file at `p`. -/
def fsWrite (fs : Fs DF) (p : String) (c : FileContent DF) : Fs DF :=
  fun q => if q = p then some c else fs q

/-- Remove the file at `p`. -/
def fsRemove (fs : Fs DF) (p : String) : Fs DF :=
  fun q => if q = p then none else fs q

/-- Python `os.path.exists` / `os.path.isfile` on our file-only model. -/
def fsExists (fs : Fs DF) (p : String) : Bool :=
  (fs p).isSome

/-- Observable actions: HTTP requests issued and messages printed. -/
inductive Event (DF : Type) where
  | httpGet (url : String)
  | httpPut (url : String) (body : FileContent DF)
  | httpDelete (url : String)
  | printed (msg : String)
deriving DecidableEq

/-- Python exceptions raised by the code under model. -/
inductive Err where
  | valueError (msg : String)
  | fileNotFoundError (msg : String)
  | httpError (status : Nat)
  | decodeError
deriving DecidableEq, Repr

/-- The response the external HTTP server would give to a request. -/
structure HResp (DF : Type) where
  status : Nat
  text : String
  content : FileContent DF

/-- Result of running one of the Python functions: the filesystem after the
call, the trace of observable events, and the returned value or the
exception that propagated. -/
structure Outcome (DF : Type) (α : Type) where
  fs : Fs DF
  events : List (Event DF)
  result : Except Err α

/-- Model of `download_file` (core.py lines 77-103): GET the object, raise for 4xx/5xx,
`os.makedirs(os.path.dirname(dest), exist_ok=True)` (which raises
FileNotFoundError when the dirname is empty), then stream the body to the
destination, overwriting it. -/
def download_file (remoteFilePath localDestinationPath storageZone passwordRead : String)
    (printStatus : Bool) (resp : HResp DF) (fs : Fs DF) : Outcome DF Unit :=
  let url := "https://storage.bunnycdn.com/" ++ storageZone ++ "/" ++ remoteFilePath
  let ev : List (Event DF) := [.httpGet url]
  if raisesForStatus resp.status then
    ⟨fs, ev, .error (.httpError resp.status)⟩
  else if dirname localDestinationPath = "" then
    ⟨fs, ev, .error (.fileNotFoundError "")⟩
  else
    ⟨fsWrite fs localDestinationPath resp.content,
      ev ++ (if printStatus then
        [.printed ("Successfully downloaded: " ++ localDestinationPath ++ ".")] else []),
      .ok ()⟩

/-- Model of `upload_file` (core.py lines 109-167): FileNotFoundError when the local
file is missing (before any request); the PUT URL uses the remote path when
that string is nonempty and otherwise the local path; raise for 4xx/5xx. -/
def upload_file (localFilePath remoteFilePath storageZone passwordWrite region : String)
    (printStatus : Bool) (resp : HResp DF) (fs : Fs DF) : Outcome DF Unit :=
  if !fsExists fs localFilePath then
    ⟨fs, [], .error (.fileNotFoundError ("Local file not found: " ++ localFilePath))⟩
  else
    let baseUrl := if region ≠ "" then region ++ "." ++ "storage.bunnycdn.com"
      else "storage.bunnycdn.com"
    let storageUrl := if remoteFilePath ≠ "" then
        "https://" ++ baseUrl ++ "/" ++ storageZone ++ "/" ++ remoteFilePath
      else "https://" ++ baseUrl ++ "/" ++ storageZone ++ "/" ++ localFilePath
    let ev : List (Event DF) := [.httpPut storageUrl ((fs localFilePath).getD .empty)]
    if raisesForStatus resp.status then
      ⟨fs, ev, .error (.httpError resp.status)⟩
    else
      ⟨fs, ev ++ (if printStatus then
        [.printed ("Successfully uploaded to " ++ remoteFilePath ++ ".")] else []),
        .ok ()⟩

/-- Model of `delete_file` (core.py lines 173-198): DELETE the object, then only
print: a success line for 200, a no-op line for 404, and otherwise the
response text with the status code. No exception is ever raised. -/
def delete_file (remoteFilePath storageZone passwordWrite : String)
    (printStatus : Bool) (resp : HResp DF) (fs : Fs DF) : Outcome DF Unit :=
  let url := "https://storage.bunnycdn.com/" ++ storageZone ++ "/" ++ remoteFilePath
  let ev : List (Event DF) := [.httpDelete url]
  let ev2 := if printStatus then
      if resp.status = 200 then
        ev ++ [.printed ("The remote file " ++ remoteFilePath ++ " was deleted successfully.")]
      else if resp.status = 404 then
        ev ++ [.printed (remoteFilePath ++
          " not found in the remote storage zone. No deletion has been performed.")]
      else
        ev ++ [.printed (resp.text ++ " (HTTP Code: " ++ toString resp.status ++ ")")]
    else ev
  ⟨fs, ev2, .ok ()⟩

/-- Model of `write_tmp_df` (core.py lines 204-242): create a named temp file with
suffix `.format` (it stays on disk), then dispatch on `format` to the
pandas encoder; unsupported formats raise ValueError after the temp file
was already created. -/
def write_tmp_df (df : DF) (format : String) (tmpBase : String) (fs : Fs DF) :
    Outcome DF String :=
  let tempPath := tmpBase ++ "." ++ format
  let fs0 := fsWrite fs tempPath .empty
  if format = "csv" then
    ⟨fsWrite fs0 tempPath (.encoded "csv" df), [], .ok tempPath⟩
  else if format = "xls" ∨ format = "xlsx" ∨ format = "xlsm" then
    ⟨fsWrite fs0 tempPath (.encoded "excel" df), [], .ok tempPath⟩
  else if format = "ods" then
    ⟨fsWrite fs0 tempPath (.encoded "excel-odf" df), [], .ok tempPath⟩
  else if format = "stata" then
    ⟨fsWrite fs0 tempPath (.encoded "stata" df), [], .ok tempPath⟩
  else if format = "hdf" then
    ⟨fsWrite fs0 tempPath (.encoded "hdf" df), [], .ok tempPath⟩
  else if format = "parquet" then
    ⟨fsWrite fs0 tempPath (.encoded "parquet" df), [], .ok tempPath⟩
  else if format = "f" ∨ format = "feather" then
    ⟨fsWrite fs0 tempPath (.encoded "feather" df), [], .ok tempPath⟩
  else if format = "pkl" ∨ format = "pickle" then
    ⟨fsWrite fs0 tempPath (.encoded "pickle" df), [], .ok tempPath⟩
  else
    ⟨fs0, [], .error (.valueError ("Unsupported file extension: " ++ format ++ "."))⟩

/-- A pandas `read_*` call on a local file: FileNotFoundError when the file
is missing, the decoded frame when the content was produced by the matching
encoder, and a decode error otherwise (malformed content). -/
def pandasRead (fs : Fs DF) (p : String) (codec : String) : Except Err DF :=
  match fs p with
  | none => .error (.fileNotFoundError p)
  | some (.encoded c df) => if c = codec then .ok df else .error .decodeError
  | some _ => .error .decodeError

/-- Model of `read_tmp_df` (core.py lines 248-284): derive the format from the path
suffix, lower-cased with the leading dot stripped, and dispatch to the
pandas decoder; unsupported extensions raise ValueError. -/
def read_tmp_df (localFilePath : String) (fs : Fs DF) : Except Err DF :=
  let format := lstripDot (strToLower (pathSuffix localFilePath))
  if format = "csv" then pandasRead fs localFilePath "csv"
  else if format = "xls" ∨ format = "xlsx" ∨ format = "xlsm" then
    pandasRead fs localFilePath "excel"
  else if format = "ods" then pandasRead fs localFilePath "excel-odf"
  else if format = "stata" then pandasRead fs localFilePath "stata"
  else if format = "hdf" then pandasRead fs localFilePath "hdf"
  else if format = "parquet" then pandasRead fs localFilePath "parquet"
  else if format = "f" ∨ format = "feather" then pandasRead fs localFilePath "feather"
  else if format = "pkl" ∨ format = "pickle" then pandasRead fs localFilePath "pickle"
  else .error (.valueError ("Unsupported file extension: " ++ format ++ "."))

/-- Model of `delete_local_file` (core.py lines 290-302): remove the file if it
exists, otherwise do nothing. -/
def delete_local_file (localFile : String) (fs : Fs DF) : Fs DF :=
  if fsExists fs localFile then fsRemove fs localFile else fs

/-- Model of `write_bunny_df` (core.py lines 308-347): derive the format from the
remote path suffix (lower-cased, dot stripped), validate it against
`dataFrameExt`, write the frame to a local temp file, upload that file,
and only then delete the temp file; a final confirmation is printed. There
is no try/finally: if the upload raises, the deletion line is never
reached. -/
def write_bunny_df (df : DF) (remoteFilePath storageZone passwordWrite region : String)
    (printStatus : Bool) (tmpBase : String) (putResp : HResp DF) (fs : Fs DF) :
    Outcome DF Unit :=
  let format := lstripDot (strToLower (pathSuffix remoteFilePath))
  if format ∉ dataFrameExt then
    ⟨fs, [], .error (.valueError ("Unsupported file extension " ++ format ++ "."))⟩
  else
    let w := write_tmp_df df format tmpBase fs
    match w.result with
    | .error e => ⟨w.fs, w.events, .error e⟩
    | .ok localFilePath =>
      let u := upload_file localFilePath remoteFilePath storageZone passwordWrite region
        false putResp w.fs
      match u.result with
      | .error e => ⟨u.fs, w.events ++ u.events, .error e⟩
      | .ok _ =>
        ⟨delete_local_file localFilePath u.fs,
          w.events ++ u.events ++ [.printed ("Data frame successfully written to Bunny.net: "
            ++ storageZone ++ "/" ++ remoteFilePath ++ ".")],
          .ok ()⟩

/-- Model of `read_bunny_df` (core.py lines 353-403): validate the remote suffix with
the dot stripped but WITHOUT lower-casing, create a temp file with the same
suffix, then inside try/finally download into it and parse it; the finally
block removes the temp file when it exists, on every exit path. -/
def read_bunny_df (remoteFilePath storageZone passwordRead : String)
    (printStatus : Bool) (tmpBase : String) (getResp : HResp DF) (fs : Fs DF) :
    Outcome DF DF :=
  let format := pathSuffix remoteFilePath
  let formatClean := lstripDot format
  if formatClean ∉ dataFrameExt then
    ⟨fs, [], .error (.valueError ("Unsupported file extension " ++ format ++ "."))⟩
  else
    let localFilePath := tmpBase ++ format
    let fs1 := fsWrite fs localFilePath .empty
    let d := download_file remoteFilePath localFilePath storageZone passwordRead
      false getResp fs1
    match d.result with
    | .error e =>
      ⟨(if fsExists d.fs localFilePath then fsRemove d.fs localFilePath else d.fs),
        d.events, .error e⟩
    | .ok _ =>
      match read_tmp_df localFilePath d.fs with
      | .error e =>
        ⟨(if fsExists d.fs localFilePath then fsRemove d.fs localFilePath else d.fs),
          d.events, .error e⟩
      | .ok df =>
        ⟨(if fsExists d.fs localFilePath then fsRemove d.fs localFilePath else d.fs),
          d.events ++ (if printStatus then
            [.printed ("Data frame successfully loaded from Bunny.net: "
              ++ storageZone ++ "/" ++ remoteFilePath ++ ".")] else []),
          .ok df⟩

/-- The bodies of the PUT requests in a trace, in order. -/
def putContents (evs : List (Event DF)) : List (FileContent DF) :=
  evs.filterMap fun e => match e with
    | .httpPut _ c => some c
    | _ => none

/-- The codec selected by the pandas dispatch for each supported format. -/
def codecOf (fmt : String) : String :=
  if fmt = "csv" then "csv"
  else if fmt = "xls" ∨ fmt = "xlsx" ∨ fmt = "xlsm" then "excel"
  else if fmt = "ods" then "excel-odf"
  else if fmt = "stata" then "stata"
  else if fmt = "hdf" then "hdf"
  else if fmt = "parquet" then "parquet"
  else if fmt = "f" ∨ fmt = "feather" then "feather"
  else "pickle"

lemma fsExists_cleanup {DF : Type} (fs : Fs DF) (p : String) :
    fsExists (if fsExists fs p then fsRemove fs p else fs) p = false := by
  cases hex : fsExists fs p <;> simp_all [fsExists, fsRemove]

example : pathSuffix "x.CSV" = ".CSV" := by decide
example : pathSuffix "data.csv" = ".csv" := by decide
example : pathSuffix "a/b.tar.gz" = ".gz" := by decide
example : pathSuffix ".bashrc" = "" := by decide
example : dirname "downloaded_sample_text.txt" = "" := by decide
example : dirname "/tmp/r.csv" = "/tmp" := by decide
example : lstripDot ".CSV" = "CSV" := by decide
example : lstripDot (strToLower ".CSV") = "csv" := by decide
example : "x" ++ "." ++ "csv" = "x.csv" := by decide

/-- C2 (amended): `delete_file` distinguishes three outcomes only in what it
prints: a success line for status 200, a no-op line for 404, and for every
other status the response body with the status code; no error is ever
raised to the caller — the call returns normally for every status. -/
theorem delete_file_tristate_print_only (remote zone pw text : String) (s : Nat)
    (fs : Fs Nat) :
    (delete_file remote zone pw true ⟨s, text, .empty⟩ fs).result = .ok () ∧
    (delete_file remote zone pw true ⟨s, text, .empty⟩ fs).events =
      [.httpDelete ("https://storage.bunnycdn.com/" ++ zone ++ "/" ++ remote),
       .printed (if s = 200 then
           "The remote file " ++ remote ++ " was deleted successfully."
         else if s = 404 then
           remote ++ " not found in the remote storage zone. No deletion has been performed."
         else text ++ " (HTTP Code: " ++ toString s ++ ")")] := by
  refine ⟨rfl, ?_⟩
  unfold delete_file
  by_cases h200 : s = 200 <;> by_cases h404 : s = 404 <;> simp [h200, h404]

/-- C2 counterexample: on a 500 response `delete_file` returns normally;
no error reaches the caller, contradicting the claim that every status
other than 200 and 404 is surfaced as an error. -/
theorem delete_file_no_error_cex :
    (delete_file "f.txt" "zone" "pw" true ⟨500, "Server Error", .empty⟩
      (fsEmpty Nat)).result = .ok () := rfl

/-- C7 (amended): for a response with a 4xx or 5xx status, `download_file`
raises the HTTP error and leaves the filesystem untouched: the destination
is neither created nor modified. (Statuses outside 2xx that are not
4xx/5xx, e.g. 304, are not errors for `raise_for_status`.) -/
theorem download_file_error_leaves_fs {DF : Type} (remote dest zone pw : String)
    (ps : Bool) (resp : HResp DF) (fs : Fs DF)
    (h : raisesForStatus resp.status = true) :
    (download_file remote dest zone pw ps resp fs).result = .error (.httpError resp.status) ∧
    (download_file remote dest zone pw ps resp fs).fs = fs := by
  unfold download_file
  simp [h]

theorem download_file_error_leaves_fs_witness :
    (download_file "missing.csv" "/tmp/out.csv" "z" "pw" true
      ⟨404, "", .empty⟩ (fsEmpty Nat)).result = .error (.httpError 404) ∧
    (download_file "missing.csv" "/tmp/out.csv" "z" "pw" true
      ⟨404, "", .empty⟩ (fsEmpty Nat)).fs = fsEmpty Nat :=
  download_file_error_leaves_fs "missing.csv" "/tmp/out.csv" "z" "pw" true
    ⟨404, "", .empty⟩ (fsEmpty Nat) (by decide)

/-- C7 counterexample: a 304 response is not 2xx, yet `raise_for_status`
does not raise for it, so `download_file` succeeds and writes the response
body to the destination — the claim fails for non-2xx statuses outside
4xx/5xx. -/
theorem download_file_304_writes_cex :
    (download_file "f.csv" "/tmp/out.csv" "z" "pw" false
      ⟨304, "", .raw "body"⟩ (fsEmpty Nat)).result = .ok () ∧
    (download_file "f.csv" "/tmp/out.csv" "z" "pw" false
      ⟨304, "", .raw "body"⟩ (fsEmpty Nat)).fs "/tmp/out.csv" = some (.raw "body") :=
  ⟨rfl, rfl⟩

/-- C8: when the local file does not exist, `upload_file` raises
FileNotFoundError and its event trace is empty: no HTTP request was
issued before the failure. -/
theorem upload_file_missing_no_request {DF : Type} (lp rp zone pw region : String)
    (ps : Bool) (resp : HResp DF) (fs : Fs DF) (h : fs lp = none) :
    (upload_file lp rp zone pw region ps resp fs).result =
      .error (.fileNotFoundError ("Local file not found: " ++ lp)) ∧
    (upload_file lp rp zone pw region ps resp fs).events = [] := by
  unfold upload_file
  simp [fsExists, h]

theorem upload_file_missing_no_request_witness :
    (upload_file "nope.txt" "r.txt" "z" "pw" "" true ⟨201, "", .empty⟩
      (fsEmpty Nat)).result =
      .error (.fileNotFoundError ("Local file not found: " ++ "nope.txt")) ∧
    (upload_file "nope.txt" "r.txt" "z" "pw" "" true ⟨201, "", .empty⟩
      (fsEmpty Nat)).events = [] :=
  upload_file_missing_no_request "nope.txt" "r.txt" "z" "pw" "" true ⟨201, "", .empty⟩
    (fsEmpty Nat) rfl

/-- C9 (code bug): on a 200 response with a destination that has no
directory component — exactly how the example in the repository calls
`download_file` — `os.makedirs(os.path.dirname(dest), exist_ok=True)`
becomes `os.makedirs("")`, which raises FileNotFoundError, so nothing is
written; with a destination inside a directory the body is written and an
existing file is overwritten as the claim states. -/
theorem download_file_bare_destination_bug :
    (download_file "sample_text.txt" "downloaded_sample_text.txt" "zone" "pw" true
      ⟨200, "", .raw "hello"⟩ (fsEmpty Nat)).result = .error (.fileNotFoundError "") ∧
    (download_file "sample_text.txt" "downloaded_sample_text.txt" "zone" "pw" true
      ⟨200, "", .raw "hello"⟩ (fsEmpty Nat)).fs "downloaded_sample_text.txt" = none ∧
    (download_file "sample_text.txt" "/tmp/out.txt" "zone" "pw" true
      ⟨200, "", .raw "new"⟩ (fsWrite (fsEmpty Nat) "/tmp/out.txt" (.raw "old"))).fs
      "/tmp/out.txt" = some (.raw "new") :=
  ⟨rfl, rfl, rfl⟩

/-- C10: with an existing local file and a successful response, an empty
remote path makes `upload_file` PUT to the URL built from the local path,
while a nonempty remote path is used verbatim in the URL; both succeed. -/
theorem upload_file_empty_remote_uses_local {DF : Type} (lp rp zone pw : String)
    (c : FileContent DF) (resp : HResp DF) (fs : Fs DF)
    (hfs : fs lp = some c) (hst : raisesForStatus resp.status = false)
    (hrp : rp ≠ "") :
    ((upload_file lp "" zone pw "" false resp fs).events =
       [.httpPut ("https://" ++ "storage.bunnycdn.com" ++ "/" ++ zone ++ "/" ++ lp) c] ∧
     (upload_file lp "" zone pw "" false resp fs).result = .ok ()) ∧
    ((upload_file lp rp zone pw "" false resp fs).events =
       [.httpPut ("https://" ++ "storage.bunnycdn.com" ++ "/" ++ zone ++ "/" ++ rp) c] ∧
     (upload_file lp rp zone pw "" false resp fs).result = .ok ()) := by
  unfold upload_file
  simp [fsExists, hfs, hst, hrp]

theorem upload_file_empty_remote_uses_local_witness :
    ((upload_file "/data/f.txt" "" "z" "pw" "" false ⟨201, "", .empty⟩
        (fsWrite (fsEmpty Nat) "/data/f.txt" (.raw "x"))).events =
       [.httpPut ("https://" ++ "storage.bunnycdn.com" ++ "/" ++ "z" ++ "/" ++ "/data/f.txt")
         (.raw "x")] ∧
     (upload_file "/data/f.txt" "" "z" "pw" "" false ⟨201, "", .empty⟩
        (fsWrite (fsEmpty Nat) "/data/f.txt" (.raw "x"))).result = .ok ()) ∧
    ((upload_file "/data/f.txt" "r.txt" "z" "pw" "" false ⟨201, "", .empty⟩
        (fsWrite (fsEmpty Nat) "/data/f.txt" (.raw "x"))).events =
       [.httpPut ("https://" ++ "storage.bunnycdn.com" ++ "/" ++ "z" ++ "/" ++ "r.txt")
         (.raw "x")] ∧
     (upload_file "/data/f.txt" "r.txt" "z" "pw" "" false ⟨201, "", .empty⟩
        (fsWrite (fsEmpty Nat) "/data/f.txt" (.raw "x"))).result = .ok ()) :=
  upload_file_empty_remote_uses_local "/data/f.txt" "r.txt" "z" "pw" (.raw "x")
    ⟨201, "", .empty⟩ (fsWrite (fsEmpty Nat) "/data/f.txt" (.raw "x"))
    (by decide) (by decide) (by decide)

/-- C4 (amended): `write_tmp_df` raises the unsupported-format ValueError
exactly for format strings outside the dispatch set, which is the claimed
enumeration EXTENDED with "xls" and "xlsm"; those two are outside the
claimed closed enumeration yet dispatch to the Excel encoder. -/
theorem write_tmp_df_unsupported {DF : Type} (df : DF) (fmt tb : String) (fs : Fs DF)
    (h : fmt ∉ dataFrameExt ++ ["xls", "xlsm"]) :
    (write_tmp_df df fmt tb fs).result =
      .error (.valueError ("Unsupported file extension: " ++ fmt ++ ".")) := by
  simp only [dataFrameExt, List.cons_append, List.nil_append, List.mem_cons,
    List.not_mem_nil, or_false, not_or] at h
  obtain ⟨hcsv, hxlsx, hparquet, hods, hstata, hhdf, hff, hfeather, hpkl, hpickle,
    hxls, hxlsm⟩ := h
  simp [write_tmp_df, hcsv, hxls, hxlsx, hxlsm, hods, hstata, hhdf, hparquet, hff,
    hfeather, hpkl, hpickle]

theorem write_tmp_df_unsupported_witness :
    (write_tmp_df 0 "txt" "/tmp/t" (fsEmpty Nat)).result =
      .error (.valueError ("Unsupported file extension: " ++ "txt" ++ ".")) :=
  write_tmp_df_unsupported 0 "txt" "/tmp/t" (fsEmpty Nat) (by decide)

/-- C4 counterexample: "xls" is outside the claimed closed enumeration
`dataFrameExt`, yet `write_tmp_df` does not fail on it — it dispatches to
the Excel encoder and returns the temp path. -/
theorem write_tmp_df_xls_dispatches_cex :
    "xls" ∉ dataFrameExt ∧
    (write_tmp_df 0 "xls" "/tmp/t" (fsEmpty Nat)).result = .ok "/tmp/t.xls" ∧
    (write_tmp_df 0 "xls" "/tmp/t" (fsEmpty Nat)).fs "/tmp/t.xls" =
      some (.encoded "excel" 0) :=
  ⟨by decide, rfl, rfl⟩

lemma write_bunny_df_success_outcome {DF : Type} (df : DF)
    (path zone pw region : String) (ps : Bool) (tb : String) (resp : HResp DF)
    (fs : Fs DF) (fmt : String)
    (hf : lstripDot (strToLower (pathSuffix path)) = fmt)
    (hmem : fmt ∈ dataFrameExt)
    (h0 : raisesForStatus resp.status = false) :
    (write_bunny_df df path zone pw region ps tb resp fs).result = .ok () ∧
    fsExists (write_bunny_df df path zone pw region ps tb resp fs).fs
      (tb ++ "." ++ fmt) = false ∧
    putContents (write_bunny_df df path zone pw region ps tb resp fs).events =
      [.encoded (codecOf fmt) df] := by
  simp only [dataFrameExt, List.mem_cons, List.not_mem_nil, or_false] at hmem
  rcases hmem with rfl | rfl | rfl | rfl | rfl | rfl | rfl | rfl | rfl | rfl <;>
    simp [write_bunny_df, write_tmp_df, upload_file, delete_local_file, putContents,
      codecOf, fsExists, fsWrite, fsRemove, dataFrameExt, hf, h0]

lemma write_bunny_df_failure_outcome {DF : Type} (df : DF)
    (path zone pw region : String) (ps : Bool) (tb : String) (resp : HResp DF)
    (fs : Fs DF) (fmt : String)
    (hf : lstripDot (strToLower (pathSuffix path)) = fmt)
    (hmem : fmt ∈ dataFrameExt)
    (h1 : raisesForStatus resp.status = true) :
    (write_bunny_df df path zone pw region ps tb resp fs).result =
      .error (.httpError resp.status) ∧
    (write_bunny_df df path zone pw region ps tb resp fs).fs (tb ++ "." ++ fmt) =
      some (.encoded (codecOf fmt) df) := by
  simp only [dataFrameExt, List.mem_cons, List.not_mem_nil, or_false] at hmem
  rcases hmem with rfl | rfl | rfl | rfl | rfl | rfl | rfl | rfl | rfl | rfl <;>
    simp [write_bunny_df, write_tmp_df, upload_file, delete_local_file, codecOf,
      fsExists, fsWrite, fsRemove, dataFrameExt, hf, h1]

lemma read_bunny_df_success_outcome {DF : Type} (df : DF)
    (path zone pw : String) (ps : Bool) (tb ext fmt : String) (fs : Fs DF)
    (hsuf : pathSuffix path = ext)
    (hclean : lstripDot ext = fmt)
    (hmem : fmt ∈ dataFrameExt)
    (htmp : lstripDot (strToLower (pathSuffix (tb ++ ext))) = fmt)
    (hdir : dirname (tb ++ ext) ≠ "") :
    (read_bunny_df path zone pw ps tb ⟨200, "", .encoded (codecOf fmt) df⟩ fs).result =
      .ok df := by
  simp only [dataFrameExt, List.mem_cons, List.not_mem_nil, or_false] at hmem
  rcases hmem with rfl | rfl | rfl | rfl | rfl | rfl | rfl | rfl | rfl | rfl <;>
    simp [read_bunny_df, download_file, read_tmp_df, pandasRead, codecOf, fsExists,
      fsWrite, fsRemove, raisesForStatus, dataFrameExt, hsuf, hclean, htmp, hdir]

/-- C1 (amended): `write_bunny_df` deletes its local temp file only on the
success path; when the upload succeeds the temp file is gone and the call
returns normally, but when the upload raises, the error propagates to the
caller and the temp file is NOT deleted — it remains on disk, because the
deletion line is written after the upload with no try/finally. -/
theorem write_bunny_df_cleanup_success_only {DF : Type} (df : DF)
    (path zone pw region : String) (ps : Bool) (tb : String) (resp : HResp DF)
    (fs : Fs DF) (fmt : String)
    (hf : lstripDot (strToLower (pathSuffix path)) = fmt)
    (hmem : fmt ∈ dataFrameExt) :
    (raisesForStatus resp.status = false →
      (write_bunny_df df path zone pw region ps tb resp fs).result = .ok () ∧
      fsExists (write_bunny_df df path zone pw region ps tb resp fs).fs
        (tb ++ "." ++ fmt) = false) ∧
    (raisesForStatus resp.status = true →
      (write_bunny_df df path zone pw region ps tb resp fs).result =
        .error (.httpError resp.status) ∧
      fsExists (write_bunny_df df path zone pw region ps tb resp fs).fs
        (tb ++ "." ++ fmt) = true) := by
  constructor
  · intro h0
    have h := write_bunny_df_success_outcome df path zone pw region ps tb resp fs fmt
      hf hmem h0
    exact ⟨h.1, h.2.1⟩
  · intro h1
    have h := write_bunny_df_failure_outcome df path zone pw region ps tb resp fs fmt
      hf hmem h1
    exact ⟨h.1, by simp [fsExists, h.2]⟩

theorem write_bunny_df_cleanup_success_only_witness :
    (raisesForStatus (500 : Nat) = false →
      (write_bunny_df 0 "d.csv" "zone" "pw" "" true "/tmp/w"
        ⟨500, "", .empty⟩ (fsEmpty Nat)).result = .ok () ∧
      fsExists (write_bunny_df 0 "d.csv" "zone" "pw" "" true "/tmp/w"
        ⟨500, "", .empty⟩ (fsEmpty Nat)).fs ("/tmp/w" ++ "." ++ "csv") = false) ∧
    (raisesForStatus (500 : Nat) = true →
      (write_bunny_df 0 "d.csv" "zone" "pw" "" true "/tmp/w"
        ⟨500, "", .empty⟩ (fsEmpty Nat)).result = .error (.httpError 500) ∧
      fsExists (write_bunny_df 0 "d.csv" "zone" "pw" "" true "/tmp/w"
        ⟨500, "", .empty⟩ (fsEmpty Nat)).fs ("/tmp/w" ++ "." ++ "csv") = true) :=
  write_bunny_df_cleanup_success_only 0 "d.csv" "zone" "pw" "" true "/tmp/w"
    ⟨500, "", .empty⟩ (fsEmpty Nat) "csv" (by decide) (by decide)

/-- C1 counterexample: with a failing upload (status 500), `write_bunny_df`
propagates the error but the local temp file `/tmp/w.csv` is still present
afterwards — the claimed deletion on every exit path does not happen. -/
theorem write_bunny_df_tmp_survives_failed_upload_cex :
    (write_bunny_df 0 "d.csv" "zone" "pw" "" true "/tmp/w"
      ⟨500, "", .empty⟩ (fsEmpty Nat)).result = .error (.httpError 500) ∧
    fsExists (write_bunny_df 0 "d.csv" "zone" "pw" "" true "/tmp/w"
      ⟨500, "", .empty⟩ (fsEmpty Nat)).fs "/tmp/w.csv" = true :=
  ⟨rfl, rfl⟩

/-- C3 (amended): the write path derives the format case-insensitively
(the suffix is lower-cased before validation and dispatch), but the read
path validates the suffix WITHOUT lower-casing: a remote path ending in
".CSV" is accepted by `write_bunny_df` as csv yet rejected by
`read_bunny_df` with an unsupported-extension error. -/
theorem ext_case_write_insensitive_read_sensitive {DF : Type} (df : DF)
    (zone pww pwr : String) (fs fs2 : Fs DF) (resp : HResp DF) :
    (write_bunny_df df "x.CSV" zone pww "" true "/tmp/w" ⟨201, "", .empty⟩ fs).result
      = .ok () ∧
    (read_bunny_df "x.CSV" zone pwr true "/tmp/r" resp fs2).result =
      .error (.valueError ("Unsupported file extension " ++ ".CSV" ++ ".")) := by
  constructor
  · exact (write_bunny_df_success_outcome df "x.CSV" zone pww "" true "/tmp/w"
      ⟨201, "", .empty⟩ fs "csv" (by decide) (by decide) rfl).1
  · have hfc : lstripDot ".CSV" = "CSV" := by decide
    have hs : pathSuffix "x.CSV" = ".CSV" := by decide
    simp [read_bunny_df, hfc, hs, dataFrameExt]

/-- C3 counterexample: `read_bunny_df` rejects a remote path whose
extension differs from a supported one only in letter case — the claim
that the read path accepts ".CSV" as csv is false. -/
theorem read_bunny_df_uppercase_ext_cex :
    (read_bunny_df "x.CSV" "zone" "pw" true "/tmp/r"
      ⟨200, "", .encoded "csv" 0⟩ (fsEmpty Nat)).result =
      .error (.valueError ("Unsupported file extension " ++ ".CSV" ++ ".")) := rfl

/-- C6: for every response and starting filesystem — success, download
failure (4xx/5xx status), or parse failure (undecodable content) —
`read_bunny_df` removes the temp file it allocated before returning or
propagating the error: the file is absent from the final filesystem. -/
theorem read_bunny_df_tmp_deleted_all_paths {DF : Type} (path zone pw : String)
    (ps : Bool) (tb : String) (resp : HResp DF) (fs : Fs DF)
    (hmem : lstripDot (pathSuffix path) ∈ dataFrameExt) :
    fsExists (read_bunny_df path zone pw ps tb resp fs).fs (tb ++ pathSuffix path)
      = false := by
  have hneg : ¬ (lstripDot (pathSuffix path) ∉ dataFrameExt) := by simp [hmem]
  simp only [read_bunny_df]
  rw [if_neg hneg]
  cases (download_file path (tb ++ pathSuffix path) zone pw false resp
      (fsWrite fs (tb ++ pathSuffix path) FileContent.empty)).result with
  | error e => exact fsExists_cleanup _ _
  | ok a =>
    cases read_tmp_df (tb ++ pathSuffix path) (download_file path (tb ++ pathSuffix path)
        zone pw false resp (fsWrite fs (tb ++ pathSuffix path) FileContent.empty)).fs with
    | error e => exact fsExists_cleanup _ _
    | ok d => exact fsExists_cleanup _ _

theorem read_bunny_df_tmp_deleted_all_paths_witness :
    fsExists (read_bunny_df "a.csv" "z" "pw" true "/tmp/r"
      ⟨404, "", .empty⟩ (fsEmpty Nat)).fs ("/tmp/r" ++ pathSuffix "a.csv") = false :=
  read_bunny_df_tmp_deleted_all_paths "a.csv" "z" "pw" true "/tmp/r" ⟨404, "", .empty⟩
    (fsEmpty Nat) (by decide)

/-- C5: round-trip law. For any table `df` and supported lowercase format
`fmt`, writing with `write_bunny_df` to a path with that extension PUTs
the encoded table, and reading the same path back with `read_bunny_df`,
when the GET returns exactly the content that was uploaded, yields `df`
again (equality of `df` is the natural equality of the format, since encoded
content is modelled symbolically). -/
theorem bunny_df_round_trip {DF : Type} (df : DF)
    (path zone pww pwr region : String) (ps1 ps2 : Bool) (tb1 tb2 ext fmt : String)
    (putStatus : Nat) (fs1 fs2 : Fs DF)
    (hsuf : pathSuffix path = ext)
    (hlow : strToLower ext = ext)
    (hclean : lstripDot ext = fmt)
    (hmem : fmt ∈ dataFrameExt)
    (htmp : lstripDot (strToLower (pathSuffix (tb2 ++ ext))) = fmt)
    (hdir : dirname (tb2 ++ ext) ≠ "")
    (hput : raisesForStatus putStatus = false) :
    ∃ c ∈ putContents (write_bunny_df df path zone pww region ps1 tb1
        ⟨putStatus, "", .empty⟩ fs1).events,
      (write_bunny_df df path zone pww region ps1 tb1 ⟨putStatus, "", .empty⟩ fs1).result
        = .ok () ∧
      (read_bunny_df path zone pwr ps2 tb2 ⟨200, "", c⟩ fs2).result = .ok df := by
  have hf : lstripDot (strToLower (pathSuffix path)) = fmt := by rw [hsuf, hlow, hclean]
  have hw := write_bunny_df_success_outcome df path zone pww region ps1 tb1
    ⟨putStatus, "", .empty⟩ fs1 fmt hf hmem hput
  refine ⟨.encoded (codecOf fmt) df, ?_, hw.1, ?_⟩
  · rw [hw.2.2]; simp
  · exact read_bunny_df_success_outcome df path zone pwr ps2 tb2 ext fmt fs2
      hsuf hclean hmem htmp hdir

theorem bunny_df_round_trip_witness :
    ∃ c ∈ putContents (write_bunny_df 0 "data.csv" "z" "pw" "" true "/tmp/w"
        ⟨201, "", .empty⟩ (fsEmpty Nat)).events,
      (write_bunny_df 0 "data.csv" "z" "pw" "" true "/tmp/w"
        ⟨201, "", .empty⟩ (fsEmpty Nat)).result = .ok () ∧
      (read_bunny_df "data.csv" "z" "pr" true "/tmp/r" ⟨200, "", c⟩
        (fsEmpty Nat)).result = .ok 0 :=
  bunny_df_round_trip 0 "data.csv" "z" "pw" "pr" "" true true "/tmp/w" "/tmp/r"
    ".csv" "csv" 201 (fsEmpty Nat) (fsEmpty Nat) (by decide) (by decide) (by decide)
    (by decide) (by decide) (by decide) (by decide)
